import Mathlib

/-!
Verification of the web-term session/terminal multiplexing layer.

The definitions below are a shallow embedding of the server-side code:

* `src/server/terminal.js` — tmux session naming (`TMUX_SESSION_NAMES`,
  `getTmuxSessionName`), channel creation (`createTerminalChannel`),
  resize/write/close (`resizeTerminal`, `writeToTerminal`,
  `closeTerminalChannel`), and teardown (`killAllUserTmuxSessions`,
  `listTmuxSessions`).
* `src/server/auth.js` — the session registry (`getSession`,
  `validateSession`, `destroySession`).
* `src/server/websocket.js` — the message handlers
  (`handleTerminalCreate`, `handleTerminalInput`, `handleTerminalResize`,
  `handleTerminalClose`).

Stateful code is embedded as explicit state passing; observable side
effects (remote exec invocations, stream writes, WebSocket sends, log
lines) are collected in an `Action` trace.  Fallible operations are
parameterised by explicit fault flags and return `Except`.
-/

namespace WebTerm

/-! ## tmux session naming (terminal.js lines 11-29) -/

/-- Embedding of the constant map `TMUX_SESSION_NAMES` (terminal.js 11-15):
`term-1 ↦ main`, `term-2 ↦ top`, `term-3 ↦ bottom`; any other key is
absent (JS property access yields `undefined`, modelled as `none`). -/
def TMUX_SESSION_NAMES : String → Option String := fun t =>
  match t with
  | "term-1" => some "main"
  | "term-2" => some "top"
  | "term-3" => some "bottom"
  | _ => none

/-- Embedding of `getTmuxSessionName` (terminal.js 26-29):
the suffix is the table entry, or — via the `||` fallback — the raw
terminalId when the table has no entry; the result is
`webterm-${username}-${suffix}`. -/
def getTmuxSessionName (username terminalId : String) : String :=
  let suffix := (TMUX_SESSION_NAMES terminalId).getD terminalId
  "webterm-" ++ username ++ "-" ++ suffix

/-- The per-user namespace used by `listTmuxSessions` (terminal.js 150)
and `killAllUserTmuxSessions` (terminal.js 193): `webterm-${username}-`. -/
def tmuxPrefixOf (username : String) : String :=
  "webterm-" ++ username ++ "-"

/-- Boolean list-prefix test used to model the remote `grep "^p"` filter. -/
def isPrefixList : List Char → List Char → Bool
  | [], _ => true
  | _ :: _, [] => false
  | a :: as, b :: bs => a == b && isPrefixList as bs

/-- Model of the remote-side filter `grep "^p"` applied to one tmux
session name: true exactly when `p` is a prefix of `s`. -/
def grepPrefixMatch (p s : String) : Bool :=
  isPrefixList p.data s.data

/-- The three recognised terminal slots (terminal.js 11-15, docs). -/
def slots : List String := ["term-1", "term-2", "term-3"]

/-! ## Remote list/kill pipelines (terminal.js 148-223) -/

/-- Effect of the remote pipeline `tmux list-sessions -F "#{session_name}"
2>/dev/null | grep "^p" || true` (terminal.js 152) on a host whose tmux
sessions are `remoteSessions`: the names matching the grep filter. -/
def runListCmd (p : String) (remoteSessions : List String) : List String :=
  remoteSessions.filter (fun n => grepPrefixMatch p n)

/-- Effect of the remote pipeline issued by `killAllUserTmuxSessions`
(terminal.js 199) — list, grep the user namespace, `xargs tmux
kill-session` — on a host whose tmux sessions are `remoteSessions`: the
sessions surviving are exactly those not matching the filter. -/
def runKillCmd (p : String) (remoteSessions : List String) : List String :=
  remoteSessions.filter (fun n => !grepPrefixMatch p n)

/-- Embedding of `listTmuxSessions` (terminal.js 148-168): resolves with
the empty list when exec reports an error, else with the grep-filtered
session names. -/
def listTmuxSessions (username : String) (execFails : Bool)
    (remoteSessions : List String) : List String :=
  if execFails then [] else runListCmd (tmuxPrefixOf username) remoteSessions

/-- Possible behaviour of `session.connection.exec` for the teardown
command of `killAllUserTmuxSessions`: the exec callback receives an
error, or a stream whose `close` event fires after the given number of
milliseconds, or a stream whose `close` event never fires. -/
inductive ExecOutcome
  | execError
  | streamCloses (afterMs : Nat)
  | streamNeverCloses
  deriving DecidableEq

/-- Settlement of a JS promise: resolved or rejected, at a time in ms
after the promise was created. -/
inductive Settlement
  | resolved (atMs : Nat)
  | rejected (atMs : Nat)
  deriving DecidableEq

/-- The bound of the `setTimeout` guard in `killAllUserTmuxSessions`
(terminal.js 220): 5000 ms. -/
def KILL_TIMEOUT_MS : Nat := 5000

/-- The single remote command built by `killAllUserTmuxSessions`
(terminal.js 199): list all tmux sessions, grep the user's namespace,
kill every match via xargs, then echo a sentinel — one shell pipeline
submitted as one exec invocation. -/
def killAllCmd (username : String) : String :=
  "tmux list-sessions -F \"#\x7bsession_name\x7d\" 2>/dev/null | grep \"^" ++
    tmuxPrefixOf username ++
    "\" | xargs -r -I \x7b\x7d tmux kill-session -t \x7b\x7d 2>/dev/null; echo done"

/-- Embedding of `killAllUserTmuxSessions` (terminal.js 192-223): issues
exactly one exec invocation carrying `killAllCmd`; the promise executor
only ever resolves — immediately when exec reports an error, on the
stream's close event, or at the 5000 ms timeout, whichever comes
first.  Returns the list of exec invocations issued and the promise
settlement. -/
def killAllUserTmuxSessions (username : String) (outcome : ExecOutcome) :
    List String × Settlement :=
  ([killAllCmd username],
    match outcome with
    | ExecOutcome.execError => Settlement.resolved 0
    | ExecOutcome.streamCloses t => Settlement.resolved (min t KILL_TIMEOUT_MS)
    | ExecOutcome.streamNeverCloses => Settlement.resolved KILL_TIMEOUT_MS)

/-! ## Observable actions and the session data model -/

/-- One observable side effect of the embedded server code. -/
inductive Action
  | execCmd (cmd : String)
  | streamWrite (streamId : Nat) (data : String)
  | streamCloseCall (streamId : Nat)
  | setWindowCall (streamId : Nat) (rows cols : Nat)
  | sftpEndCall
  | connectionEndCall
  | wsSend (msgType : String) (terminalId : String)
  | logError (msg : String)
  deriving DecidableEq

/-- Whether an action is a remote command invocation (`connection.exec`). -/
def Action.isExecCmd : Action → Bool
  | Action.execCmd _ => true
  | _ => false

/-- Whether an action sends the given WebSocket message type. -/
def Action.isWsSendOf (a : Action) (msgType : String) : Bool :=
  match a with
  | Action.wsSend t _ => t == msgType
  | _ => false

/-- Whether an action closes a stream. -/
def Action.isStreamCloseCall : Action → Bool
  | Action.streamCloseCall _ => true
  | _ => false

/-- The terminal id a `terminal:closed` send notifies, if the action is
one. -/
def closedNotification? : Action → Option String
  | Action.wsSend t tid => if t = "terminal:closed" then some tid else none
  | _ => none

/-- The terminal ids notified `terminal:closed` by an action trace, in
order and with multiplicity. -/
def closedNotifications (tr : List Action) : List String :=
  tr.filterMap closedNotification?

/-- The terminal object built at terminal.js 56-62: exactly the fields
`id`, `tmuxSession`, `stream`, `cols`, `rows`; the live byte-stream
handle is embedded as a numeric stream identifier. -/
structure TerminalObj where
  id : String
  tmuxSession : String
  streamId : Nat
  cols : Nat
  rows : Nat
  deriving DecidableEq

/-- Own property names of the terminal object literal (terminal.js
56-62).  In particular there is no `close` property. -/
def terminalObjFields : List String :=
  ["id", "tmuxSession", "stream", "cols", "rows"]

/-- JS method call `obj.m()` on an object whose own properties are
`fields`: a property that is not present reads as `undefined`, and
calling it raises `TypeError: m is not a function`. -/
def jsMethodCall (fields : List String) (m : String) : Except String Unit :=
  if m ∈ fields then Except.ok ()
  else Except.error ("TypeError: " ++ m ++ " is not a function")

/-- JS `Map.get`: the value stored under `k`, if present. -/
def mapGet {α : Type} (m : List (String × α)) (k : String) : Option α :=
  match m with
  | [] => none
  | (k', v) :: rest => if k' = k then some v else mapGet rest k

/-- JS `Map.set`: replaces the value in place when the key is already
present, otherwise appends the new entry (JS maps keep insertion
order). -/
def mapSet {α : Type} (m : List (String × α)) (k : String) (v : α) :
    List (String × α) :=
  match m with
  | [] => [(k, v)]
  | (k', v') :: rest =>
    if k' = k then (k', v) :: rest else (k', v') :: mapSet rest k v

/-- JS `Map.delete`: removes the entry stored under `k`. -/
def mapDelete {α : Type} (m : List (String × α)) (k : String) :
    List (String × α) :=
  m.filter (fun p => !(p.1 == k))

/-- The session object built in auth.js (`authenticateUser` /
`createSession`): id, username, the exclusively-owned connection handle
(implicit), the terminals map, and whether the lazily-created sftp
handle exists. -/
structure SessionObj where
  id : String
  username : String
  terminals : List (String × TerminalObj)
  sftpPresent : Bool
  deriving DecidableEq

/-- Embedding of `getSession` (auth.js 274-276):
`sessions.get(sessionId) || null`. -/
def getSession (sessions : List (String × SessionObj)) (sessionId : String) :
    Option SessionObj :=
  mapGet sessions sessionId

/-- Embedding of `validateSession` (auth.js 265-267):
`sessions.has(sessionId)`. -/
def validateSession (sessions : List (String × SessionObj))
    (sessionId : String) : Bool :=
  (mapGet sessions sessionId).isSome

/-- Bookkeeping for ssh2 exec streams: the next fresh stream id, the ids
of streams that are open (live, i.e. opened and never closed), and the
(streamId, terminalId) output bindings registered by `onTerminalData`
(websocket.js 117-123) — a live binding delivers that stream's output
to the transport tagged with its terminal id, and its close handler
(terminal.js 134-136) reports `callback(null)`, which the websocket
layer turns into a `terminal:closed` send. -/
structure StreamState where
  nextId : Nat
  liveStreams : List Nat
  bindings : List (Nat × String)
  deriving DecidableEq

/-- Events delivered (asynchronously) as a consequence of
`session.connection.end()`: ending the SSH connection closes every
still-open exec channel exactly once, and for each closed stream the
close handler registered by `onTerminalData` (terminal.js 134-136)
fires `callback(null)`, which `handleTerminalCreate`'s callback
(websocket.js 117-123) turns into exactly one `terminal:closed` send
for that stream's terminal id — delivered when the WebSocket is still
open (`sendMessage` checks `ws.readyState`, websocket.js 231-235). -/
def connectionEndFanout (st : StreamState) (wsOpen : Bool) : List Action :=
  st.liveStreams.map Action.streamCloseCall ++
    (if wsOpen then
      (st.bindings.filter (fun b => st.liveStreams.contains b.1)).map
        (fun b => Action.wsSend "terminal:closed" b.2)
     else [])

/-- Per-terminal step of `destroySession`'s close loop (auth.js 286-292):
`try { channel.close() } catch (err) { console.error(...) }`.  The
values stored in `session.terminals` are the terminal object literals
of terminal.js 56-62, which have no `close` property, so the call
raises `TypeError` and the catch block logs it. -/
def closeChannelAttempt (terminalId : String) (term : TerminalObj) :
    List Action :=
  match jsMethodCall terminalObjFields "close" with
  | Except.ok _ => [Action.streamCloseCall term.streamId]
  | Except.error e =>
    [Action.logError ("Error closing terminal " ++ terminalId ++ ": " ++ e)]

/-- Embedding of `destroySession` (auth.js 282-312): looks the session
up; if present, runs the per-terminal close loop, then
`session.sftp.end()` when the sftp handle exists, then
`session.connection.end()`, then `sessions.delete(sessionId)`.
`sftpEndThrows` / `connEndThrows` say whether the respective `end()`
calls throw; each sits in its own try/catch, so the final delete is
always reached.  When `connection.end()` succeeds, ending the SSH
connection closes every live exec channel, whose `onTerminalData`
close handlers fan out one `terminal:closed` per bound terminal
(`connectionEndFanout`); a throwing `end()` is modelled with no
fan-out.  `st` is the stream bookkeeping of the session's connection
and `wsOpen` whether the browser's WebSocket is still open.  Returns
the updated registry and the action trace (the fan-out events are
delivered asynchronously, after the registry delete). -/
def destroySession (sessions : List (String × SessionObj))
    (sessionId : String) (st : StreamState)
    (wsOpen sftpEndThrows connEndThrows : Bool) :
    List (String × SessionObj) × List Action :=
  match mapGet sessions sessionId with
  | none => (sessions, [])
  | some session =>
    let closeActs := session.terminals.foldr
      (fun tv acc => closeChannelAttempt tv.1 tv.2 ++ acc) []
    let sftpActs :=
      if session.sftpPresent then
        Action.sftpEndCall ::
          (if sftpEndThrows then [Action.logError "Error closing SFTP"] else [])
      else []
    let connActs :=
      if connEndThrows then
        [Action.connectionEndCall, Action.logError "Error closing SSH connection"]
      else
        Action.connectionEndCall :: connectionEndFanout st wsOpen
    (mapDelete sessions sessionId, closeActs ++ sftpActs ++ connActs)

/-! ## Terminal channel creation and the coordinator handlers -/

/-- Embedding of `createTerminalChannel` (terminal.js 38-68): builds the
idempotent attach-or-create command `tmux new-session -A -s <name>
<statusOpt>` and execs it with a pty (`execErr` says whether
`connection.exec` reports an error, in which case the promise rejects);
on success it constructs the terminal object (cols 80, rows 24) and
stores it in the session's map via `Map.set` — without touching any
channel previously registered under the same id.  `showStatus` embeds
the `TMUX_SHOW_STATUS` environment flag (terminal.js 18, 45). -/
def createTerminalChannel (session : SessionObj) (st : StreamState)
    (terminalId : String) (showStatus execErr : Bool) :
    Except String (SessionObj × StreamState × TerminalObj × List Action) :=
  let tmuxSession := getTmuxSessionName session.username terminalId
  let statusOpt := if showStatus then "" else "\\; set status off"
  let tmuxCmd := "tmux new-session -A -s " ++ tmuxSession ++ " " ++ statusOpt
  if execErr then
    Except.error "Failed to create tmux session"
  else
    let sid := st.nextId
    let term : TerminalObj :=
      { id := terminalId, tmuxSession := tmuxSession, streamId := sid,
        cols := 80, rows := 24 }
    Except.ok
      ({ session with terminals := mapSet session.terminals terminalId term },
        { st with nextId := sid + 1, liveStreams := sid :: st.liveStreams },
        term,
        [Action.execCmd tmuxCmd])

/-- Embedding of `handleTerminalCreate` (websocket.js 113-126): awaits
`createTerminalChannel`, registers the `onTerminalData` output binding
for the new stream, and sends `terminal:ready`.  An exec failure
propagates to the message dispatcher's catch. -/
def handleTerminalCreate (session : SessionObj) (st : StreamState)
    (terminalId : String) (showStatus execErr : Bool) :
    Except String (SessionObj × StreamState × List Action) :=
  match createTerminalChannel session st terminalId showStatus execErr with
  | Except.error e => Except.error e
  | Except.ok (session', st', term, acts) =>
    Except.ok (session',
      { st' with bindings := (term.streamId, terminalId) :: st'.bindings },
      acts ++ [Action.wsSend "terminal:ready" terminalId])

/-- The ssh2 `stream.setWindow(rows, cols, 0, 0)` call (terminal.js
78); `fails` says whether it throws. -/
def setWindow (streamId rows cols : Nat) (fails : Bool) :
    Except String (List Action) :=
  if fails then Except.error "setWindow failed"
  else Except.ok [Action.setWindowCall streamId rows cols]

/-- Embedding of `resizeTerminal` (terminal.js 76-84): tries
`stream.setWindow` and the dimension updates inside one try block; on
any error the catch logs `Error resizing terminal` and continues, so
the result is always `ok` and the stored dimensions change only on
success. -/
def resizeTerminal (term : TerminalObj) (cols rows : Nat) (fails : Bool) :
    Except String (TerminalObj × List Action) :=
  match setWindow term.streamId rows cols fails with
  | Except.ok acts => Except.ok ({ term with cols := cols, rows := rows }, acts)
  | Except.error e =>
    Except.ok (term, [Action.logError ("Error resizing terminal: " ++ e)])

/-- Embedding of `writeToTerminal` (terminal.js 116-122): tries
`stream.write(data)`; on error logs and continues. -/
def writeToTerminal (term : TerminalObj) (data : String)
    (writeThrows : Bool) : List Action :=
  if writeThrows then [Action.logError "Error writing to terminal"]
  else [Action.streamWrite term.streamId data]

/-- Embedding of `closeTerminalChannel` (terminal.js 91-109): writes
the tmux detach keystroke `Ctrl+B d`, schedules `stream.close()` after
the 100 ms grace delay, then deletes the map entry; when the initial
write throws, the catch logs and the delete — still inside the try
block — is skipped. -/
def closeTerminalChannel (term : TerminalObj) (session : SessionObj)
    (writeThrows : Bool) : SessionObj × List Action :=
  if writeThrows then
    (session, [Action.logError "Error closing terminal channel"])
  else
    ({ session with terminals := mapDelete session.terminals term.id },
      [Action.streamWrite term.streamId "\x02d",
        Action.streamCloseCall term.streamId])

/-- Embedding of `handleTerminalInput` (websocket.js 131-138): looks
the terminal up in the session's map and forwards the data; when the id
is absent nothing at all happens. -/
def handleTerminalInput (session : SessionObj) (terminalId data : String)
    (writeThrows : Bool) : SessionObj × List Action :=
  match mapGet session.terminals terminalId with
  | some term => (session, writeToTerminal term data writeThrows)
  | none => (session, [])

/-- Embedding of `handleTerminalResize` (websocket.js 143-150): forwards
to `resizeTerminal` when the id is present; no-op otherwise.  (The
`resizeTerminal` promise never rejects, so the error branch of the
match is unreachable.) -/
def handleTerminalResize (session : SessionObj) (terminalId : String)
    (cols rows : Nat) (setWindowThrows : Bool) : SessionObj × List Action :=
  match mapGet session.terminals terminalId with
  | some term =>
    match resizeTerminal term cols rows setWindowThrows with
    | Except.ok (term', acts) =>
      ({ session with terminals := mapSet session.terminals terminalId term' },
        acts)
    | Except.error _ => (session, [])
  | none => (session, [])

/-- Embedding of `handleTerminalClose` (websocket.js 155-162): forwards
to `closeTerminalChannel` when the id is present; no-op otherwise. -/
def handleTerminalClose (session : SessionObj) (terminalId : String)
    (writeThrows : Bool) : SessionObj × List Action :=
  match mapGet session.terminals terminalId with
  | some term => closeTerminalChannel term session writeThrows
  | none => (session, [])

/-! ## Concrete sample states -/

/-- A concrete session for user `alice` with the three terminals open
and an sftp handle, as after logging in and opening all three panes. -/
def sampleSession : SessionObj :=
  { id := "sid-1", username := "alice",
    terminals :=
      [("term-1", { id := "term-1", tmuxSession := "webterm-alice-main",
                    streamId := 0, cols := 80, rows := 24 }),
       ("term-2", { id := "term-2", tmuxSession := "webterm-alice-top",
                    streamId := 1, cols := 80, rows := 24 }),
       ("term-3", { id := "term-3", tmuxSession := "webterm-alice-bottom",
                    streamId := 2, cols := 80, rows := 24 })],
    sftpPresent := true }

/-- A registry holding just `sampleSession` under id `sid-1`. -/
def sampleRegistry : List (String × SessionObj) := [("sid-1", sampleSession)]

/-- Stream bookkeeping matching `sampleSession`: streams 0, 1, 2 are
live and bound to `term-1`, `term-2`, `term-3`, exactly as three
`handleTerminalCreate` calls leave them. -/
def sampleStreams : StreamState :=
  { nextId := 3, liveStreams := [0, 1, 2],
    bindings := [(0, "term-1"), (1, "term-2"), (2, "term-3")] }

/-- A fresh session for `alice`: no terminals, no sftp handle yet. -/
def freshSession : SessionObj :=
  { id := "sid-1", username := "alice", terminals := [], sftpPresent := false }

/-- Initial stream bookkeeping: no streams allocated yet. -/
def initialStreams : StreamState :=
  { nextId := 0, liveStreams := [], bindings := [] }

/-- Result of two consecutive creates for `term-1` from a fresh session
over one connection — the stale-reconnect double create of the
duplicate-binding property — with the concatenated action trace. -/
def doubleCreateResult : Except String (SessionObj × StreamState × List Action) :=
  match handleTerminalCreate freshSession initialStreams "term-1" false false with
  | Except.error e => Except.error e
  | Except.ok (s₁, st₁, a₁) =>
    match handleTerminalCreate s₁ st₁ "term-1" false false with
    | Except.error e => Except.error e
    | Except.ok (s₂, st₂, a₂) => Except.ok (s₂, st₂, a₁ ++ a₂)

/-- The stream ids that are bound to `terminalId` by a registered
`onTerminalData` output binding and still live: each such stream
delivers output to the transport tagged with that terminal id. -/
def liveStreamsBoundTo (st : StreamState) (terminalId : String) : List Nat :=
  ((st.bindings.filter (fun b => b.2 == terminalId)).map (fun b => b.1)).filter
    (fun sid => st.liveStreams.contains sid)

/-! ## Uniqueness of splitting at a delimiter character

Helper lemmas for the injectivity of `getTmuxSessionName`: splitting a
character list at a delimiter that does not occur in the trailing part
is unique. -/

theorem splitAtFirst_unique {c : Char} :
    ∀ (p₁ p₂ s₁ s₂ : List Char), c ∉ p₁ → c ∉ p₂ →
      p₁ ++ c :: s₁ = p₂ ++ c :: s₂ → p₁ = p₂ ∧ s₁ = s₂ := by
  intro p₁
  induction p₁ with
  | nil =>
    intro p₂ s₁ s₂ _ h₂ h
    cases p₂ with
    | nil =>
      simp only [List.nil_append] at h
      exact ⟨rfl, (List.cons.injEq _ _ _ _ ▸ h).2⟩
    | cons d p₂ =>
      simp only [List.nil_append, List.cons_append, List.cons.injEq] at h
      exact absurd (h.1 ▸ List.mem_cons_self d p₂) h₂
  | cons a p₁ ih =>
    intro p₂ s₁ s₂ h₁ h₂ h
    cases p₂ with
    | nil =>
      simp only [List.cons_append, List.nil_append, List.cons.injEq] at h
      exact absurd (h.1 ▸ List.mem_cons_self a p₁) h₁
    | cons d p₂ =>
      simp only [List.cons_append, List.cons.injEq] at h
      have h₁' : c ∉ p₁ := fun hm => h₁ (List.mem_cons_of_mem a hm)
      have h₂' : c ∉ p₂ := fun hm => h₂ (List.mem_cons_of_mem d hm)
      obtain ⟨hp, hs⟩ := ih p₂ s₁ s₂ h₁' h₂' h.2
      exact ⟨by rw [h.1, hp], hs⟩

theorem splitAtLast_unique {c : Char} (a₁ a₂ b₁ b₂ : List Char)
    (h₁ : c ∉ b₁) (h₂ : c ∉ b₂)
    (h : a₁ ++ c :: b₁ = a₂ ++ c :: b₂) : a₁ = a₂ ∧ b₁ = b₂ := by
  have hr := congrArg List.reverse h
  simp only [List.reverse_append, List.reverse_cons, List.append_assoc,
    List.singleton_append] at hr
  have h₁' : c ∉ b₁.reverse := fun hm => h₁ (List.mem_reverse.mp hm)
  have h₂' : c ∉ b₂.reverse := fun hm => h₂ (List.mem_reverse.mp hm)
  obtain ⟨hb, ha⟩ := splitAtFirst_unique b₁.reverse b₂.reverse a₁.reverse a₂.reverse h₁' h₂' hr
  exact ⟨List.reverse_inj.mp ha, List.reverse_inj.mp hb⟩

theorem getTmuxSessionName_data (username terminalId : String) :
    (getTmuxSessionName username terminalId).data =
      ("webterm-" ++ username).data ++
        '-' :: ((TMUX_SESSION_NAMES terminalId).getD terminalId).data := by
  show ("webterm-" ++ username ++ "-" ++ (TMUX_SESSION_NAMES terminalId).getD terminalId).data = _
  rw [String.data_append, String.data_append]
  simp only [List.append_assoc]
  rfl

theorem getTmuxSessionName_inj_aux (u₁ u₂ t₁ t₂ : String)
    (h₁ : '-' ∉ ((TMUX_SESSION_NAMES t₁).getD t₁).data)
    (h₂ : '-' ∉ ((TMUX_SESSION_NAMES t₂).getD t₂).data)
    (h : getTmuxSessionName u₁ t₁ = getTmuxSessionName u₂ t₂) :
    u₁ = u₂ ∧ (TMUX_SESSION_NAMES t₁).getD t₁ = (TMUX_SESSION_NAMES t₂).getD t₂ := by
  have hd := congrArg String.data h
  rw [getTmuxSessionName_data, getTmuxSessionName_data] at hd
  obtain ⟨ha, hb⟩ := splitAtLast_unique _ _ _ _ h₁ h₂ hd
  constructor
  · rw [String.data_append, String.data_append] at ha
    exact String.ext (List.append_cancel_left ha)
  · exact String.ext hb

/-- C5: for recognised slots, `getTmuxSessionName` is deterministic (the
right-to-left direction: equal inputs give the identical string — the
function reads nothing but its arguments and the constant table) and
collision-free (the left-to-right direction: equal names force equal
username and equal slot, even for usernames containing dashes, because
the slot suffixes `main`/`top`/`bottom` are dash-free and pairwise
distinct). -/
theorem getTmuxSessionName_eq_iff (u₁ u₂ s₁ s₂ : String)
    (h₁ : s₁ ∈ slots) (h₂ : s₂ ∈ slots) :
    getTmuxSessionName u₁ s₁ = getTmuxSessionName u₂ s₂ ↔ (u₁ = u₂ ∧ s₁ = s₂) := by
  constructor
  · intro h
    simp only [slots, List.mem_cons, List.not_mem_nil, or_false] at h₁ h₂
    rcases h₁ with rfl | rfl | rfl <;> rcases h₂ with rfl | rfl | rfl <;>
      obtain ⟨hu, hs⟩ := getTmuxSessionName_inj_aux _ _ _ _ (by decide) (by decide) h
    all_goals first
      | exact ⟨hu, rfl⟩
      | exact absurd hs (by decide)
  · rintro ⟨rfl, rfl⟩
    rfl

theorem getTmuxSessionName_eq_iff_witness :
    (("term-1" ∈ slots) ∧ ("term-2" ∈ slots)) ∧
      (getTmuxSessionName "alice" "term-1" = getTmuxSessionName "bob" "term-2" ↔
        ("alice" = "bob" ∧ "term-1" = "term-2")) :=
  ⟨⟨by decide, by decide⟩,
    getTmuxSessionName_eq_iff "alice" "bob" "term-1" "term-2" (by decide) (by decide)⟩

/-- C10: the per-user namespace `webterm-<username>-` does not delimit a
username boundary: for the distinct usernames `a` and `a-b`, every tmux
session name generated for `a-b` matches user `a`'s grep filter
`^webterm-a-`, so `a`'s list and teardown operations select (and
teardown kills) `a-b`'s remote sessions. -/
theorem username_boundary_not_delimited :
    ("a" : String) ≠ "a-b" ∧
      grepPrefixMatch (tmuxPrefixOf "a") (getTmuxSessionName "a-b" "term-1") = true ∧
      grepPrefixMatch (tmuxPrefixOf "a") (getTmuxSessionName "a-b" "term-2") = true ∧
      grepPrefixMatch (tmuxPrefixOf "a") (getTmuxSessionName "a-b" "term-3") = true := by
  refine ⟨by decide, ?_, ?_, ?_⟩ <;> decide

/-! ## Map lemmas -/

theorem mapGet_mapDelete {α : Type} (m : List (String × α)) (k : String) :
    mapGet (mapDelete m k) k = none := by
  induction m with
  | nil => rfl
  | cons p rest ih =>
    rcases p with ⟨k', v⟩
    by_cases hk : k' = k
    · simpa [mapDelete, List.filter_cons, hk] using ih
    · simpa [mapDelete, List.filter_cons, mapGet, hk] using ih

theorem mapGet_mapSet {α : Type} (m : List (String × α)) (k : String) (v : α) :
    mapGet (mapSet m k v) k = some v := by
  induction m with
  | nil => simp [mapSet, mapGet]
  | cons p rest ih =>
    rcases p with ⟨k', v'⟩
    by_cases hk : k' = k <;> simp [mapSet, mapGet, hk, ih]

/-! ## Teardown properties -/

/-- C2: `killAllUserTmuxSessions` issues exactly one remote command
invocation — the single pipeline `killAllCmd` covering every session
matching the user's namespace (running it leaves no matching session
behind, for any remote session list) — and for every exec outcome its
promise settles as resolved no later than the 5000 ms timeout bound; it
never rejects and never stays pending. -/
theorem killAllUserTmuxSessions_atomic_and_bounded (username : String)
    (outcome : ExecOutcome) (remoteSessions : List String) :
    (killAllUserTmuxSessions username outcome).1 = [killAllCmd username] ∧
      (∃ t, (killAllUserTmuxSessions username outcome).2 = Settlement.resolved t ∧
        t ≤ KILL_TIMEOUT_MS) ∧
      ((runKillCmd (tmuxPrefixOf username) remoteSessions).all
          (fun n => !grepPrefixMatch (tmuxPrefixOf username) n)) = true := by
  refine ⟨rfl, ?_, ?_⟩
  · cases outcome with
    | execError => exact ⟨0, rfl, Nat.zero_le _⟩
    | streamCloses t => exact ⟨min t KILL_TIMEOUT_MS, rfl, Nat.min_le_right t _⟩
    | streamNeverCloses => exact ⟨KILL_TIMEOUT_MS, rfl, Nat.le_refl _⟩
  · rw [List.all_eq_true]
    intro n hn
    exact (List.mem_filter.mp hn).2

/-- C1: the claim fails on the code.  `destroySession` (auth.js
282-312, reached from the `/api/logout` route) never invokes the
multiplexer teardown at all: evaluated on a live session of user
`alice` with three open terminals and an sftp handle, its action trace
contains no remote command invocation whatsoever (an invocation of
`killAllUserTmuxSessions` would contribute `execCmd (killAllCmd
"alice")`), yet it does close the sftp handle and the connection
handle. -/
theorem destroySession_issues_no_remote_command :
    ((destroySession sampleRegistry "sid-1" sampleStreams true false false).2.all
        (fun a => !a.isExecCmd)) = true ∧
      Action.sftpEndCall ∈
        (destroySession sampleRegistry "sid-1" sampleStreams true false false).2 ∧
      Action.connectionEndCall ∈
        (destroySession sampleRegistry "sid-1" sampleStreams true false false).2 := by
  decide

theorem closedNotifications_append (tr₁ tr₂ : List Action) :
    closedNotifications (tr₁ ++ tr₂) =
      closedNotifications tr₁ ++ closedNotifications tr₂ := by
  simp [closedNotifications, List.filterMap_append]

theorem closedNotifications_streamCloses (live : List Nat) :
    closedNotifications (live.map Action.streamCloseCall) = [] := by
  induction live with
  | nil => rfl
  | cons sid rest ih => exact ih

theorem closedNotifications_sends (bs : List (Nat × String)) :
    closedNotifications (bs.map (fun b => Action.wsSend "terminal:closed" b.2)) =
      bs.map (fun b => b.2) := by
  induction bs with
  | nil => rfl
  | cons b rest ih => exact congrArg (List.cons b.2) ih

theorem closedNotifications_closeLoop (ts : List (String × TerminalObj)) :
    closedNotifications
      (ts.foldr (fun tv acc => closeChannelAttempt tv.1 tv.2 ++ acc) []) = [] := by
  induction ts with
  | nil => rfl
  | cons tv rest ih =>
    rw [List.foldr_cons, closedNotifications_append, ih]
    rfl

theorem closedNotifications_sftp (present throws : Bool) :
    closedNotifications
      (if present then
        Action.sftpEndCall ::
          (if throws then [Action.logError "Error closing SFTP"] else [])
       else []) = [] := by
  cases present <;> cases throws <;> rfl

theorem count_filterLive (bs : List (Nat × String)) (live : List Nat)
    (tid : String) :
    ((bs.filter (fun b => live.contains b.1)).map (fun b => b.2)).count tid =
      (((bs.filter (fun b => b.2 == tid)).map (fun b => b.1)).filter
        (fun sid => live.contains sid)).length := by
  induction bs with
  | nil => rfl
  | cons b rest ih =>
    rcases b with ⟨sid, t⟩
    by_cases h₁ : sid ∈ live <;> by_cases h₂ : t = tid <;>
      simp [List.filter_cons, List.count_cons, h₁, h₂] <;> simpa using ih

/-- C3: for every registry, every session in it, and every terminal id
open in that session's map when `destroySession` is invoked, that id
receives exactly one `terminal:closed` notification — not merely the
most-recently-focused one.  The per-terminal close loop itself reports
nothing (`channel.close()` throws a caught TypeError), but
`connection.end()` closes every live exec channel, and the close
handler registered per terminal by `onTerminalData` (terminal.js
134-136, websocket.js 117-123) sends `terminal:closed` for its
terminal id over the still-open WebSocket.  Hypotheses: the WebSocket
is open and `connection.end()` succeeds, and the stream bookkeeping is
in the normal state where exactly one live stream is bound to the open
terminal's id (`hone`), as a single `handleTerminalCreate` per slot
leaves it. -/
theorem destroySession_closes_every_terminal
    (sessions : List (String × SessionObj)) (sessionId : String)
    (session : SessionObj) (st : StreamState) (sftpEndThrows : Bool)
    (hs : mapGet sessions sessionId = some session)
    (tid : String) (term : TerminalObj)
    (_hopen : mapGet session.terminals tid = some term)
    (hone : liveStreamsBoundTo st tid = [term.streamId]) :
    (closedNotifications
        (destroySession sessions sessionId st true sftpEndThrows false).2).count
      tid = 1 := by
  have htr : (destroySession sessions sessionId st true sftpEndThrows false).2 =
      (session.terminals.foldr (fun tv acc => closeChannelAttempt tv.1 tv.2 ++ acc) []) ++
        ((if session.sftpPresent then
            Action.sftpEndCall ::
              (if sftpEndThrows then [Action.logError "Error closing SFTP"] else [])
          else []) ++
          (Action.connectionEndCall :: connectionEndFanout st true)) := by
    simp [destroySession, hs]
  rw [htr, closedNotifications_append, closedNotifications_append,
    closedNotifications_closeLoop, closedNotifications_sftp]
  have hconn : closedNotifications (Action.connectionEndCall :: connectionEndFanout st true) =
      closedNotifications (connectionEndFanout st true) := rfl
  rw [hconn]
  have hfan : closedNotifications (connectionEndFanout st true) =
      (st.bindings.filter (fun b => st.liveStreams.contains b.1)).map (fun b => b.2) := by
    show closedNotifications (st.liveStreams.map Action.streamCloseCall ++
      (st.bindings.filter (fun b => st.liveStreams.contains b.1)).map
        (fun b => Action.wsSend "terminal:closed" b.2)) = _
    rw [closedNotifications_append, closedNotifications_streamCloses,
      closedNotifications_sends, List.nil_append]
  rw [hfan, List.nil_append, List.nil_append, count_filterLive]
  show (liveStreamsBoundTo st tid).length = 1
  rw [hone]
  rfl

theorem destroySession_closes_every_terminal_witness :
    (mapGet sampleRegistry "sid-1" = some sampleSession ∧
      mapGet sampleSession.terminals "term-2" =
        some { id := "term-2", tmuxSession := "webterm-alice-top",
               streamId := 1, cols := 80, rows := 24 } ∧
      liveStreamsBoundTo sampleStreams "term-2" = [1]) ∧
      (closedNotifications
          (destroySession sampleRegistry "sid-1" sampleStreams true false false).2).count
        "term-2" = 1 :=
  ⟨⟨by decide, by decide, by decide⟩,
    destroySession_closes_every_terminal sampleRegistry "sid-1" sampleSession
      sampleStreams false (by decide) "term-2"
      { id := "term-2", tmuxSession := "webterm-alice-top",
        streamId := 1, cols := 80, rows := 24 }
      (by decide) (by decide)⟩

/-- C7: for every registry and every sessionId present in it, after
`destroySession` returns, the session object is gone from the registry
— `getSession` yields `none` and `validateSession` is `false` — for
every combination of teardown faults (the per-terminal
`channel.close()` calls always throw, and the sftp/connection `end()`
calls may throw too; every failure is caught before the final
`sessions.delete`). -/
theorem destroySession_removes_session (sessions : List (String × SessionObj))
    (sessionId : String) (st : StreamState)
    (wsOpen sftpEndThrows connEndThrows : Bool)
    (h : validateSession sessions sessionId = true) :
    getSession
        (destroySession sessions sessionId st wsOpen sftpEndThrows connEndThrows).1
        sessionId = none ∧
      validateSession
        (destroySession sessions sessionId st wsOpen sftpEndThrows connEndThrows).1
        sessionId = false := by
  cases hm : mapGet sessions sessionId with
  | none => exact absurd h (by simp [validateSession, hm])
  | some s =>
    constructor
    · simp [destroySession, hm, getSession, mapGet_mapDelete]
    · simp [destroySession, hm, validateSession, mapGet_mapDelete]

theorem destroySession_removes_session_witness :
    validateSession sampleRegistry "sid-1" = true ∧
      (getSession
          (destroySession sampleRegistry "sid-1" sampleStreams false true true).1
          "sid-1" = none ∧
        validateSession
          (destroySession sampleRegistry "sid-1" sampleStreams false true true).1
          "sid-1" = false) :=
  ⟨by decide,
    destroySession_removes_session sampleRegistry "sid-1" sampleStreams false true true
      (by decide)⟩

/-! ## Handler properties -/

/-- C8: `write` (`terminal:input`), `resize` (`terminal:resize`) and
`closeOne` (`terminal:close`) called with a terminal id not present in
the session's map return with the session unchanged and an empty action
trace — a silent no-op, never a thrown error — for every payload and
every fault configuration. -/
theorem unknown_terminal_id_noop (session : SessionObj)
    (terminalId data : String) (cols rows : Nat) (b₁ b₂ b₃ : Bool)
    (h : mapGet session.terminals terminalId = none) :
    handleTerminalInput session terminalId data b₁ = (session, []) ∧
      handleTerminalResize session terminalId cols rows b₂ = (session, []) ∧
      handleTerminalClose session terminalId b₃ = (session, []) := by
  refine ⟨?_, ?_, ?_⟩ <;>
    simp [handleTerminalInput, handleTerminalResize, handleTerminalClose, h]

theorem unknown_terminal_id_noop_witness :
    mapGet sampleSession.terminals "term-9" = none ∧
      (handleTerminalInput sampleSession "term-9" "ls" true = (sampleSession, []) ∧
        handleTerminalResize sampleSession "term-9" 120 30 true = (sampleSession, []) ∧
        handleTerminalClose sampleSession "term-9" true = (sampleSession, [])) :=
  ⟨by decide,
    unknown_terminal_id_noop sampleSession "term-9" "ls" 120 30 true true true (by decide)⟩

/-- C9: `resizeTerminal` never throws to its caller: for every
terminal, every dimensions, and either setWindow outcome the result is
`ok` — on failure it logs `Error resizing terminal` and continues —
and its trace never contains a stream close or a `terminal:closed`
send, so the failure is never propagated as a terminal-ending
condition. -/
theorem resizeTerminal_never_throws (term : TerminalObj) (cols rows : Nat)
    (fails : Bool) :
    ∃ out, resizeTerminal term cols rows fails = Except.ok out ∧
      (out.2.all fun a => !a.isStreamCloseCall &&
        !(a.isWsSendOf "terminal:closed")) = true := by
  cases fails with
  | false =>
    exact ⟨({ term with cols := cols, rows := rows },
      [Action.setWindowCall term.streamId rows cols]), rfl, rfl⟩
  | true =>
    exact ⟨(term, [Action.logError "Error resizing terminal: setWindow failed"]),
      rfl, rfl⟩

/-! ## Channel creation properties -/

/-- C4 counterexample: the claim fails on the code.  Starting from a
fresh session, two consecutive creates for `term-1` over the same
connection leave TWO live streams (ids 1 and 0) bound to `term-1` —
the pre-existing channel is never detached, `createTerminalChannel`
merely overwrites the map entry — and the combined trace contains no
stream close, so both streams keep delivering output tagged `term-1`
(duplicated output delivery). -/
theorem duplicate_create_two_live_streams :
    (doubleCreateResult.map (fun r => liveStreamsBoundTo r.2.1 "term-1")) =
        Except.ok [1, 0] ∧
      (doubleCreateResult.map
          (fun r => r.2.2.all (fun a => !a.isStreamCloseCall))) =
        Except.ok true :=
  ⟨rfl, rfl⟩

/-- C4 amended: a create for a terminal id detaches nothing — the newly
allocated stream is added to the live set and bound to the id while
every previously live stream stays live and every previously registered
binding stays registered, and the trace contains no stream close; so a
second create for the same id leaves the old stream alive and bound, and
two live stream objects bound to one terminal id coexist (stale channels
are cleaned up only by `handleConnection` when a new WebSocket
connection arrives, not by `create`). -/
theorem create_detaches_nothing (session : SessionObj) (st : StreamState)
    (terminalId : String) (showStatus : Bool) :
    ∃ out, handleTerminalCreate session st terminalId showStatus false =
        Except.ok out ∧
      out.2.1.liveStreams = st.nextId :: st.liveStreams ∧
      out.2.1.bindings = (st.nextId, terminalId) :: st.bindings ∧
      (out.2.2.all fun a => !a.isStreamCloseCall) = true := by
  exact ⟨_, rfl, rfl, rfl, rfl⟩

/-- C6 counterexample: the claim fails on the code.  A create for the
unrecognised terminal id `bogus` performs no slot validation and still
proceeds to attachOrCreate: it issues the tmux attach command for the
fallback name `webterm-alice-bogus` and registers the channel. -/
theorem create_unrecognised_id_proceeds :
    handleTerminalCreate freshSession initialStreams "bogus" false false =
      Except.ok
        ({ id := "sid-1", username := "alice",
           terminals :=
             [("bogus", { id := "bogus", tmuxSession := "webterm-alice-bogus",
                          streamId := 0, cols := 80, rows := 24 })],
           sftpPresent := false },
          { nextId := 1, liveStreams := [0], bindings := [(0, "bogus")] },
          [Action.execCmd
              "tmux new-session -A -s webterm-alice-bogus \\; set status off",
            Action.wsSend "terminal:ready" "bogus"]) := by
  rfl

/-- C6 amended: `create` performs no validation of terminalId at all:
for every terminal id, recognised or not, it proceeds to attachOrCreate
— issuing the tmux attach command for `getTmuxSessionName(username,
terminalId)`, which for an unrecognised id uses the raw id as suffix —
and registers the resulting channel in the session's map. -/
theorem create_never_validates (session : SessionObj) (st : StreamState)
    (terminalId : String) (showStatus : Bool) :
    ∃ out, handleTerminalCreate session st terminalId showStatus false =
        Except.ok out ∧
      Action.execCmd ("tmux new-session -A -s " ++
          getTmuxSessionName session.username terminalId ++ " " ++
          (if showStatus then "" else "\\; set status off")) ∈ out.2.2 ∧
      mapGet out.1.terminals terminalId =
        some { id := terminalId,
               tmuxSession := getTmuxSessionName session.username terminalId,
               streamId := st.nextId, cols := 80, rows := 24 } := by
  refine ⟨_, rfl, ?_, ?_⟩
  · exact List.mem_cons_self _ _
  · exact mapGet_mapSet session.terminals terminalId _

end WebTerm
